import Mathlib

/-!
Shallow embedding of `src/ems_scheduler.py` (EMS shift scheduler).

The core is the `Scheduler` class: `generate_schedule(year, month)` clears the
`assignments` dict and `violations` list, computes the number of days in the
month via `calendar.monthrange`, and then, for each day and each shift in
`SHIFTS = ["AM", "Midday", "PM"]`, filters the staff dataframe by substring
containment of the shift name in the `Availability` column (`na=False`),
randomly samples `min(3, len(available))` rows without replacement, records
the picks under the key `(day_key, shift)`, and appends a violation string
for every role of `ROLES_NEEDED` not present among the picks.

Randomness (`DataFrame.sample`) is modelled by an explicit oracle
`σ : Nat → Nat → Nat`: slot number `s` draws the stream `σ s`, and each draw
`k` selects index `σ s k % remaining` among the not-yet-chosen rows, which is
exactly sampling without replacement; every concrete sample outcome of the
source corresponds to some oracle and vice versa.
-/

namespace EMS

/-- One row of the staff dataframe: columns `Name`, `Role`, `Availability`
(`none` models a missing/NaN cell), `Paid`. -/
structure StaffRecord where
  name : String
  role : String
  availability : Option String
  paid : Bool
deriving DecidableEq

/-- `SHIFTS = ["AM", "Midday", "PM"]` from the source configuration. -/
def SHIFTS : List String := ["AM", "Midday", "PM"]

/-- `ROLES_NEEDED = ["Full EMT", "Probationary EMT", "Observer"]`. -/
def ROLES_NEEDED : List String := ["Full EMT", "Probationary EMT", "Observer"]

/-- Python `pat in s` / `Series.str.contains(pat)` for a literal pattern:
substring containment. -/
def strContains (s pat : String) : Bool := decide (pat.data <:+: s.data)

/-- `self.staff_df['Availability'].str.contains(shift, na=False)` applied to
one cell: a missing (NaN) availability matches nothing. -/
def availMatches (availability : Option String) (shift : String) : Bool :=
  match availability with
  | none => false
  | some s => strContains s shift

/-- The row filter
`self.staff_df[self.staff_df['Availability'].str.contains(shift, na=False)]`:
rows keep their dataframe index (modelled by `enum`) and their order. -/
def filterAvailable (staff : List StaffRecord) (shift : String) :
    List (Nat × StaffRecord) :=
  staff.enum.filter (fun p => availMatches p.2.availability shift)

/-- `DataFrame.sample(n)` without replacement: draw `n` times, each draw
removing the chosen row from the pool. `σ` is the random stream, `k` the
index of the next draw. -/
def sampleAux (σ : Nat → Nat) : Nat → Nat → List α → List α
  | _, 0, _ => []
  | _, _ + 1, [] => []
  | k, n + 1, a :: rest =>
    let i := σ k % (a :: rest).length
    (a :: rest).get ⟨i, Nat.mod_lt _ (Nat.succ_pos rest.length)⟩ ::
      sampleAux σ (k + 1) n ((a :: rest).eraseIdx i)

/-- Lines 43–46 of the source for one slot: filter by availability and, when
the pool is non-empty, sample `min(3, len(available))` rows. -/
def slotSample (staff : List StaffRecord) (shift : String) (σ : Nat → Nat) :
    List (Nat × StaffRecord) :=
  if (filterAvailable staff shift).isEmpty then [] else
    sampleAux σ 0 (min 3 (filterAvailable staff shift).length)
      (filterAvailable staff shift)

/-- A pick `(row['Name'], row['Role'], row['Paid'])`. -/
abbrev Pick := String × String × Bool

/-- The tuple appended to `picks` for one sampled row. -/
def rowPick (r : StaffRecord) : Pick := (r.name, r.role, r.paid)

/-- Zero-pad to two digits, as `%m` / `%d` in `strftime("%Y-%m-%d")`. -/
def pad2 (n : Nat) : String := if n < 10 then "0" ++ toString n else toString n

/-- `date(year, month, d).strftime("%Y-%m-%d")` (`%Y` is unpadded on the
reference platform for years below 1000, and four digits otherwise). -/
def dayKey (year month d : Nat) : String :=
  toString year ++ "-" ++ pad2 month ++ "-" ++ pad2 d

/-- The violation string `f"{day_key} {shift}: missing role {needed}"`. -/
def violationStr (dk shift needed : String) : String :=
  dk ++ " " ++ shift ++ ": missing role " ++ needed

/-- Lines 51–54: `roles_present = {r for _, r, _ in picks}`; one violation per
role of `ROLES_NEEDED` not in `roles_present`, in `ROLES_NEEDED` order. -/
def slotViolations (dk shift : String) (picks : List Pick) : List String :=
  (ROLES_NEEDED.filter (fun needed => !(picks.any (fun p => p.2.1 == needed)))).map
    (violationStr dk shift)

/-- One loop body iteration (lines 43–54): the assignment entry
`(day_key, shift) → picks` together with the violations it appends. -/
def slotEntry (year month d : Nat) (staff : List StaffRecord) (shift : String)
    (σ : Nat → Nat) : ((String × String) × List Pick) × List String :=
  let dk := dayKey year month d
  let picks := (slotSample staff shift σ).map (fun p => rowPick p.2)
  (((dk, shift), picks), slotViolations dk shift picks)

/-- The inner `for shift in SHIFTS` loop for day `d`; slot number
`(d-1)*3 + shiftIndex` selects this slot's random stream. -/
def genDay (year month d : Nat) (staff : List StaffRecord) (σ : Nat → Nat → Nat) :
    List (((String × String) × List Pick) × List String) :=
  SHIFTS.enum.map (fun p => slotEntry year month d staff p.2 (σ ((d - 1) * 3 + p.1)))

/-- The `for d in range(1, num_days + 1)` loop. -/
def genAllSlots (year month numDays : Nat) (staff : List StaffRecord)
    (σ : Nat → Nat → Nat) :
    List (((String × String) × List Pick) × List String) :=
  ((List.range numDays).map (· + 1)).flatMap (fun d => genDay year month d staff σ)

/-- Errors raised during `calendar.monthrange`: `IllegalMonthError` when the
month is outside `[1, 12]`, else `ValueError` from `datetime.date` when the
year is outside `[1, 9999]`. -/
inductive SchedErr | illegalMonth | invalidYear
deriving DecidableEq

/-- `calendar.isleap(year)`. -/
def isleap (year : Nat) : Bool :=
  year % 4 == 0 && (year % 100 != 0 || year % 400 == 0)

/-- `calendar.mdays`. -/
def mdays : List Nat := [0, 31, 28, 31, 30, 31, 30, 31, 31, 30, 31, 30, 31]

/-- Number of days in a month, as `calendar.monthrange(year, month)[1]`
computes it for a valid month. -/
def numDaysInMonth (year month : Nat) : Nat :=
  mdays.getD month 0 + (if month == 2 && isleap year then 1 else 0)

/-- `calendar.monthrange(year, month)[1]`: checks the month first (raising
`IllegalMonthError`), then computes the weekday of day 1 via `datetime.date`,
which raises for years outside `[1, 9999]`. -/
def monthrange (year month : Nat) : Except SchedErr Nat :=
  if month < 1 ∨ 12 < month then .error .illegalMonth
  else if year < 1 ∨ 9999 < year then .error .invalidYear
  else .ok (numDaysInMonth year month)

/-- The `Scheduler` object: the staff dataframe, the two constructor limits,
and the mutable `assignments` / `violations` state (the assignments dict is
modelled as its insertion-ordered entry list). -/
structure Scheduler where
  staff_df : List StaffRecord
  max_week_paid_hours : Nat
  max_hours_per_person : Option Nat
  assignments : List ((String × String) × List Pick)
  violations : List String
deriving DecidableEq

/-- `Scheduler.generate_schedule(year, month)`. The state is cleared first
(lines 36–37); only then is `calendar.monthrange` evaluated (line 39), so a
date error leaves the scheduler cleared. On success the assignments and
violations of all slots are recorded in loop order. The second component is
the exception propagated to the caller, if any. -/
def generate_schedule (s : Scheduler) (year month : Nat) (σ : Nat → Nat → Nat) :
    Scheduler × Option SchedErr :=
  let s0 : Scheduler := { s with assignments := [], violations := [] }
  match monthrange year month with
  | .error e => (s0, some e)
  | .ok numDays =>
    let slots := genAllSlots year month numDays s.staff_df σ
    ({ s0 with
        assignments := slots.map Prod.fst,
        violations := (slots.map Prod.snd).flatten }, none)

/-- The canonical slot-key enumeration: days ascending, shifts in `SHIFTS`
order. -/
def slotKeys (year month numDays : Nat) : List (String × String) :=
  ((List.range numDays).map (· + 1)).flatMap
    (fun d => SHIFTS.map (fun sh => (dayKey year month d, sh)))

/-! ### Sampling lemmas -/

theorem sampleAux_subset (σ : Nat → Nat) :
    ∀ (n k : Nat) (l : List α), ∀ x ∈ sampleAux σ k n l, x ∈ l := by
  intro n
  induction n with
  | zero => intro k l x hx; simp [sampleAux] at hx
  | succ n ih =>
    intro k l x hx
    match l with
    | [] => simp [sampleAux] at hx
    | a :: rest =>
      simp only [sampleAux, List.mem_cons] at hx
      rcases hx with h | h
      · subst h; exact List.get_mem _ _ _
      · exact (List.eraseIdx_sublist (a :: rest) _).subset (ih _ _ x h)

theorem sampleAux_length (σ : Nat → Nat) :
    ∀ (n k : Nat) (l : List α), (sampleAux σ k n l).length = min n l.length := by
  intro n
  induction n with
  | zero => intro k l; simp [sampleAux]
  | succ n ih =>
    intro k l
    match l with
    | [] => simp [show sampleAux σ k (n + 1) ([] : List α) = [] from rfl]
    | a :: rest =>
      simp only [sampleAux, List.length_cons]
      rw [ih]
      rw [List.length_eraseIdx]
      have hlt : σ k % (rest.length + 1) < (a :: rest).length :=
        Nat.mod_lt _ (Nat.succ_pos rest.length)
      rw [if_pos hlt]
      simp only [List.length_cons]
      omega

theorem get_not_mem_eraseIdx :
    ∀ (l : List α) (i : Nat) (h : i < l.length), l.Nodup →
      l.get ⟨i, h⟩ ∉ l.eraseIdx i := by
  intro l
  induction l with
  | nil => intro i h; simp at h
  | cons a t ih =>
    intro i h hnd
    rcases List.nodup_cons.1 hnd with ⟨ha, ht⟩
    match i with
    | 0 => simpa using ha
    | i + 1 =>
      simp only [List.eraseIdx_cons_succ, List.mem_cons, List.get_cons_succ]
      push_neg
      refine ⟨?_, ih i (by simpa using h) ht⟩
      intro he
      exact ha (he ▸ List.get_mem t _ _)

theorem sampleAux_nodup (σ : Nat → Nat) :
    ∀ (n k : Nat) (l : List α), l.Nodup → (sampleAux σ k n l).Nodup := by
  intro n
  induction n with
  | zero => intro k l _; simp [sampleAux]
  | succ n ih =>
    intro k l hnd
    match l with
    | [] => simp [sampleAux]
    | a :: rest =>
      simp only [sampleAux, List.nodup_cons]
      constructor
      · intro hmem
        exact get_not_mem_eraseIdx (a :: rest) _ _ hnd
          (sampleAux_subset σ n (k + 1) _ _ hmem)
      · exact ih (k + 1) _ (((a :: rest).eraseIdx_sublist _).nodup hnd)

/-! ### Filtering and per-slot lemmas -/

theorem filterAvailable_nodup (staff : List StaffRecord) (shift : String) :
    (filterAvailable staff shift).Nodup :=
  ((List.nodup_enum_map_fst staff).of_map _).filter _

theorem mem_filterAvailable {staff : List StaffRecord} {shift : String}
    {p : Nat × StaffRecord} :
    p ∈ filterAvailable staff shift ↔
      staff[p.1]? = some p.2 ∧ availMatches p.2.availability shift = true := by
  simp [filterAvailable, List.mem_filter, List.mem_enum_iff_getElem?]

theorem slotSample_subset {staff : List StaffRecord} {shift : String}
    {σ : Nat → Nat} : ∀ p ∈ slotSample staff shift σ, p ∈ filterAvailable staff shift := by
  intro p hp
  unfold slotSample at hp
  split at hp
  · simp at hp
  · exact sampleAux_subset σ _ 0 _ p hp

theorem slotSample_nodup (staff : List StaffRecord) (shift : String)
    (σ : Nat → Nat) : (slotSample staff shift σ).Nodup := by
  unfold slotSample
  split
  · exact List.nodup_nil
  · exact sampleAux_nodup σ _ 0 _ (filterAvailable_nodup staff shift)

theorem slotSample_length (staff : List StaffRecord) (shift : String)
    (σ : Nat → Nat) :
    (slotSample staff shift σ).length = min 3 (filterAvailable staff shift).length := by
  unfold slotSample
  split
  · rename_i hemp
    rw [List.isEmpty_iff] at hemp
    simp [hemp]
  · rw [sampleAux_length]
    omega

/-! ### Loop structure lemmas -/

theorem genDay_eq (year month d : Nat) (staff : List StaffRecord)
    (σ : Nat → Nat → Nat) :
    genDay year month d staff σ =
      [slotEntry year month d staff "AM" (σ ((d - 1) * 3)),
       slotEntry year month d staff "Midday" (σ ((d - 1) * 3 + 1)),
       slotEntry year month d staff "PM" (σ ((d - 1) * 3 + 2))] := rfl

theorem mem_genAllSlots {year month numDays : Nat} {staff : List StaffRecord}
    {σ : Nat → Nat → Nat} {e} (he : e ∈ genAllSlots year month numDays staff σ) :
    ∃ d shift σ1, shift ∈ SHIFTS ∧ 1 ≤ d ∧ d ≤ numDays ∧
      e = slotEntry year month d staff shift σ1 := by
  unfold genAllSlots at he
  rw [List.mem_flatMap] at he
  obtain ⟨d, hd, hmem⟩ := he
  rw [List.mem_map] at hd
  obtain ⟨d0, hd0, rfl⟩ := hd
  rw [List.mem_range] at hd0
  rw [genDay_eq] at hmem
  simp only [List.mem_cons, List.not_mem_nil, or_false] at hmem
  rcases hmem with h | h | h
  · exact ⟨d0 + 1, "AM", _, by simp [SHIFTS], by omega, by omega, h⟩
  · exact ⟨d0 + 1, "Midday", _, by simp [SHIFTS], by omega, by omega, h⟩
  · exact ⟨d0 + 1, "PM", _, by simp [SHIFTS], by omega, by omega, h⟩

theorem flatMap_const_length {l : List α} {f : α → List β} {c : Nat}
    (h : ∀ a ∈ l, (f a).length = c) : (l.flatMap f).length = l.length * c := by
  induction l with
  | nil => simp
  | cons a t ih =>
    simp only [List.flatMap_cons, List.length_append, List.length_cons]
    rw [h a (List.mem_cons_self a t), ih (fun x hx => h x (List.mem_cons_of_mem a hx))]
    ring

theorem flatten_const_length {L : List (List β)} {c : Nat}
    (h : ∀ x ∈ L, x.length = c) : L.flatten.length = L.length * c := by
  induction L with
  | nil => simp
  | cons a t ih =>
    simp only [List.flatten_cons, List.length_append, List.length_cons]
    rw [h a (List.mem_cons_self a t), ih (fun x hx => h x (List.mem_cons_of_mem a hx))]
    ring

theorem genAllSlots_length (year month numDays : Nat) (staff : List StaffRecord)
    (σ : Nat → Nat → Nat) :
    (genAllSlots year month numDays staff σ).length = numDays * 3 := by
  unfold genAllSlots
  have h3 : ∀ d ∈ (List.range numDays).map (· + 1),
      (genDay year month d staff σ).length = 3 := fun d _ => rfl
  rw [flatMap_const_length h3]
  simp

theorem genAllSlots_keys (year month numDays : Nat) (staff : List StaffRecord)
    (σ : Nat → Nat → Nat) :
    ((genAllSlots year month numDays staff σ).map Prod.fst).map Prod.fst =
      slotKeys year month numDays := by
  unfold genAllSlots slotKeys
  rw [List.map_flatMap, List.map_flatMap]
  rfl

/-! ### Date computation and `generate_schedule` shape -/

theorem monthrange_valid {year month : Nat} (hm1 : 1 ≤ month) (hm2 : month ≤ 12)
    (hy1 : 1 ≤ year) (hy2 : year ≤ 9999) :
    monthrange year month = .ok (numDaysInMonth year month) := by
  unfold monthrange
  rw [if_neg (by omega), if_neg (by omega)]

theorem numDaysInMonth_lt32 (year : Nat) {month : Nat} (hm1 : 1 ≤ month)
    (hm2 : month ≤ 12) : numDaysInMonth year month < 32 := by
  unfold numDaysInMonth mdays
  interval_cases month <;> (simp; try (split <;> omega))

theorem generate_ok {year month : Nat} (s : Scheduler) (σ : Nat → Nat → Nat)
    (hm1 : 1 ≤ month) (hm2 : month ≤ 12) (hy1 : 1 ≤ year) (hy2 : year ≤ 9999) :
    generate_schedule s year month σ =
      ({ s with
          assignments :=
            (genAllSlots year month (numDaysInMonth year month) s.staff_df σ).map Prod.fst,
          violations :=
            ((genAllSlots year month (numDaysInMonth year month) s.staff_df σ).map
              Prod.snd).flatten }, none) := by
  simp only [generate_schedule, monthrange_valid hm1 hm2 hy1 hy2]

theorem generate_err {year month : Nat} (s : Scheduler) (σ : Nat → Nat → Nat)
    {e : SchedErr} (h : monthrange year month = .error e) :
    generate_schedule s year month σ =
      ({ s with assignments := [], violations := [] }, some e) := by
  simp only [generate_schedule, h]

/-! ### Day-key injectivity and slot-key distinctness -/

theorem pad2_inj : ∀ d1, d1 < 32 → ∀ d2, d2 < 32 → pad2 d1 = pad2 d2 → d1 = d2 := by
  decide

theorem string_append_cancel {a s t : String} (h : a ++ s = a ++ t) : s = t := by
  apply String.ext
  have hd := congrArg String.data h
  rw [String.data_append, String.data_append] at hd
  exact List.append_cancel_left hd

theorem dayKey_inj {year month d1 d2 : Nat} (h1 : d1 < 32) (h2 : d2 < 32)
    (h : dayKey year month d1 = dayKey year month d2) : d1 = d2 := by
  unfold dayKey at h
  exact pad2_inj d1 h1 d2 h2 (string_append_cancel h)

theorem slotKeys_nodup (year month : Nat) {numDays : Nat} (hnd : numDays < 32) :
    (slotKeys year month numDays).Nodup := by
  unfold slotKeys
  rw [List.nodup_flatMap]
  constructor
  · intro d _
    exact (by decide : SHIFTS.Nodup).map (Prod.mk.inj_left _)
  · have hdays : List.Pairwise (· ≠ ·) ((List.range numDays).map (· + 1)) :=
      (List.nodup_range numDays).map (fun h => by omega)
    refine List.Pairwise.imp_of_mem ?_ hdays
    intro d1 d2 hm1 hm2 hne x hx1 hx2
    rw [List.mem_map] at hx1 hx2
    obtain ⟨sh1, _, rfl⟩ := hx1
    obtain ⟨sh2, _, hx⟩ := hx2
    have hk : dayKey year month d2 = dayKey year month d1 := congrArg Prod.fst hx
    have hd1 : d1 < 32 := by
      rw [List.mem_map] at hm1
      obtain ⟨b, hb, rfl⟩ := hm1
      rw [List.mem_range] at hb
      omega
    have hd2 : d2 < 32 := by
      rw [List.mem_map] at hm2
      obtain ⟨b, hb, rfl⟩ := hm2
      rw [List.mem_range] at hb
      omega
    exact hne (dayKey_inj hd1 hd2 hk.symm)

theorem generate_keys {year month : Nat} (s : Scheduler) (σ : Nat → Nat → Nat)
    (hm1 : 1 ≤ month) (hm2 : month ≤ 12) (hy1 : 1 ≤ year) (hy2 : year ≤ 9999) :
    (generate_schedule s year month σ).1.assignments.map Prod.fst =
      slotKeys year month (numDaysInMonth year month) := by
  rw [generate_ok s σ hm1 hm2 hy1 hy2]
  exact genAllSlots_keys year month (numDaysInMonth year month) s.staff_df σ

theorem generate_assignments_length {year month : Nat} (s : Scheduler)
    (σ : Nat → Nat → Nat) (hm1 : 1 ≤ month) (hm2 : month ≤ 12) (hy1 : 1 ≤ year)
    (hy2 : year ≤ 9999) :
    (generate_schedule s year month σ).1.assignments.length =
      numDaysInMonth year month * 3 := by
  rw [generate_ok s σ hm1 hm2 hy1 hy2]
  simp only [List.length_map]
  exact genAllSlots_length year month (numDaysInMonth year month) s.staff_df σ

theorem mem_generate_assignments {year month : Nat} {s : Scheduler}
    {σ : Nat → Nat → Nat} (hm1 : 1 ≤ month) (hm2 : month ≤ 12) (hy1 : 1 ≤ year)
    (hy2 : year ≤ 9999) :
    ∀ a ∈ (generate_schedule s year month σ).1.assignments,
      ∃ d shift σ1, shift ∈ SHIFTS ∧
        a = ((dayKey year month d, shift),
              (slotSample s.staff_df shift σ1).map (fun p => rowPick p.2)) := by
  rw [generate_ok s σ hm1 hm2 hy1 hy2]
  intro a ha
  simp only [List.mem_map] at ha
  obtain ⟨e, he, rfl⟩ := ha
  obtain ⟨d, sh, σ1, hsh, _, _, rfl⟩ := mem_genAllSlots he
  exact ⟨d, sh, σ1, hsh, rfl⟩

/-! ### Violation lemmas -/

theorem roleAbsent_decide (picks : List Pick) (needed : String) :
    (!(picks.any (fun p => p.2.1 == needed))) =
      decide (needed ∉ picks.map (fun p => p.2.1)) := by
  induction picks with
  | nil => rfl
  | cons p t ih =>
    simp only [List.any_cons, List.map_cons, Bool.not_or, ih]
    by_cases h : p.2.1 = needed
    · simp [h]
    · have h1 : (p.2.1 == needed) = false := beq_eq_false_iff_ne.mpr h
      have h2 : (needed == p.2.1) = false := beq_eq_false_iff_ne.mpr (Ne.symm h)
      simp [h1, h2, h, Ne.symm h]

theorem slotViolations_eq (dk shift : String) (picks : List Pick) :
    slotViolations dk shift picks =
      (ROLES_NEEDED.filter (fun needed =>
        decide (needed ∉ picks.map (fun p => p.2.1)))).map (violationStr dk shift) := by
  unfold slotViolations
  rw [show (fun needed => !(picks.any (fun p => p.2.1 == needed))) =
      (fun needed => decide (needed ∉ picks.map (fun p => p.2.1))) from
    funext (roleAbsent_decide picks)]

theorem genAllSlots_snd_eq {year month numDays : Nat} {staff : List StaffRecord}
    {σ : Nat → Nat → Nat} :
    ∀ e ∈ genAllSlots year month numDays staff σ,
      e.2 = slotViolations e.1.1.1 e.1.1.2 e.1.2 := by
  intro e he
  obtain ⟨d, sh, σ1, _, _, _, rfl⟩ := mem_genAllSlots he
  rfl

theorem flatten_snd_eq_flatMap {L : List (A × List B)} {g : A → List B}
    (h : ∀ e ∈ L, e.2 = g e.1) :
    (L.map Prod.snd).flatten = (L.map Prod.fst).flatMap g := by
  induction L with
  | nil => rfl
  | cons e t ih =>
    simp only [List.map_cons, List.flatten_cons, List.flatMap_cons]
    rw [h e (List.mem_cons_self e t), ih (fun x hx => h x (List.mem_cons_of_mem e hx))]

theorem generate_violations_eq {year month : Nat} (s : Scheduler)
    (σ : Nat → Nat → Nat) (hm1 : 1 ≤ month) (hm2 : month ≤ 12) (hy1 : 1 ≤ year)
    (hy2 : year ≤ 9999) :
    (generate_schedule s year month σ).1.violations =
      (generate_schedule s year month σ).1.assignments.flatMap
        (fun a => slotViolations a.1.1 a.1.2 a.2) := by
  rw [generate_ok s σ hm1 hm2 hy1 hy2]
  exact flatten_snd_eq_flatMap genAllSlots_snd_eq

/-! ### Claims -/

/-- C1: for every valid `(year, month)`, after `generate_schedule` the
assignments map contains exactly `numDaysInMonth year month × 3` entries; its
key list is exactly the slot enumeration (days `1..numDays` ascending, shifts
in `[AM, Midday, PM]` order), one entry per slot even when picks are empty,
with pairwise-distinct keys. -/
theorem C1_assignments_complete (s : Scheduler) (year month : Nat)
    (σ : Nat → Nat → Nat) (hm : 1 ≤ month ∧ month ≤ 12)
    (hy : 1 ≤ year ∧ year ≤ 9999) :
    (generate_schedule s year month σ).1.assignments.length =
        numDaysInMonth year month * 3 ∧
    (generate_schedule s year month σ).1.assignments.map Prod.fst =
      slotKeys year month (numDaysInMonth year month) ∧
    ((generate_schedule s year month σ).1.assignments.map Prod.fst).Nodup := by
  refine ⟨generate_assignments_length s σ hm.1 hm.2 hy.1 hy.2,
    generate_keys s σ hm.1 hm.2 hy.1 hy.2, ?_⟩
  rw [generate_keys s σ hm.1 hm.2 hy.1 hy.2]
  exact slotKeys_nodup year month (numDaysInMonth_lt32 year hm.1 hm.2)

/-- Witness for C1 at `(2021, 2)` with an empty scheduler. -/
theorem C1_assignments_complete_witness :
    ((1 : Nat) ≤ 2 ∧ (2 : Nat) ≤ 12) ∧ ((1 : Nat) ≤ 2021 ∧ (2021 : Nat) ≤ 9999) ∧
    ((generate_schedule ⟨[], 240, none, [], []⟩ 2021 2 (fun _ _ => 0)).1.assignments.length =
        numDaysInMonth 2021 2 * 3 ∧
     (generate_schedule ⟨[], 240, none, [], []⟩ 2021 2 (fun _ _ => 0)).1.assignments.map Prod.fst =
        slotKeys 2021 2 (numDaysInMonth 2021 2) ∧
     ((generate_schedule ⟨[], 240, none, [], []⟩ 2021 2 (fun _ _ => 0)).1.assignments.map Prod.fst).Nodup) :=
  ⟨⟨by decide, by decide⟩, ⟨by decide, by decide⟩,
    C1_assignments_complete ⟨[], 240, none, [], []⟩ 2021 2 (fun _ _ => 0)
      ⟨by decide, by decide⟩ ⟨by decide, by decide⟩⟩

/-- C2: after a valid run, the violation list is exactly, in slot-then-role
order, one string `"<dayKey> <shift>: missing role <role>"` for each role of
`ROLES_NEEDED` absent from that slot's picks and none for a present role;
the slots themselves are in day-then-shift order. -/
theorem C2_missing_role_violations (s : Scheduler) (year month : Nat)
    (σ : Nat → Nat → Nat) (hm : 1 ≤ month ∧ month ≤ 12)
    (hy : 1 ≤ year ∧ year ≤ 9999) :
    (generate_schedule s year month σ).1.violations =
      (generate_schedule s year month σ).1.assignments.flatMap
        (fun a => (ROLES_NEEDED.filter (fun needed =>
            decide (needed ∉ a.2.map (fun p => p.2.1)))).map
          (violationStr a.1.1 a.1.2)) ∧
    (generate_schedule s year month σ).1.assignments.map Prod.fst =
      slotKeys year month (numDaysInMonth year month) := by
  constructor
  · rw [generate_violations_eq s σ hm.1 hm.2 hy.1 hy.2]
    congr 1
    funext a
    exact slotViolations_eq a.1.1 a.1.2 a.2
  · exact generate_keys s σ hm.1 hm.2 hy.1 hy.2

/-- Witness for C2 at `(2021, 2)` with a one-person roster. -/
theorem C2_missing_role_violations_witness :
    ((1 : Nat) ≤ 2 ∧ (2 : Nat) ≤ 12) ∧ ((1 : Nat) ≤ 2021 ∧ (2021 : Nat) ≤ 9999) ∧
    ((generate_schedule ⟨[⟨"Alice", "Full EMT", some "AM", true⟩], 240, none, [], []⟩
        2021 2 (fun _ _ => 0)).1.violations =
      (generate_schedule ⟨[⟨"Alice", "Full EMT", some "AM", true⟩], 240, none, [], []⟩
        2021 2 (fun _ _ => 0)).1.assignments.flatMap
        (fun a => (ROLES_NEEDED.filter (fun needed =>
            decide (needed ∉ a.2.map (fun p => p.2.1)))).map
          (violationStr a.1.1 a.1.2)) ∧
     (generate_schedule ⟨[⟨"Alice", "Full EMT", some "AM", true⟩], 240, none, [], []⟩
        2021 2 (fun _ _ => 0)).1.assignments.map Prod.fst =
      slotKeys 2021 2 (numDaysInMonth 2021 2)) :=
  ⟨⟨by decide, by decide⟩, ⟨by decide, by decide⟩,
    C2_missing_role_violations ⟨[⟨"Alice", "Full EMT", some "AM", true⟩], 240, none, [], []⟩
      2021 2 (fun _ _ => 0) ⟨by decide, by decide⟩ ⟨by decide, by decide⟩⟩

/-- C3: every slot's picks count is `min 3 (filterAvailable shift).length`; in
particular with at least 4 available staff the count is exactly 3, never 4. -/
theorem C3_pick_count (s : Scheduler) (year month : Nat) (σ : Nat → Nat → Nat)
    (hm : 1 ≤ month ∧ month ≤ 12) (hy : 1 ≤ year ∧ year ≤ 9999) :
    ∀ a ∈ (generate_schedule s year month σ).1.assignments,
      a.2.length = min 3 (filterAvailable s.staff_df a.1.2).length ∧
      (4 ≤ (filterAvailable s.staff_df a.1.2).length → a.2.length = 3) := by
  intro a ha
  obtain ⟨d, sh, σ1, hsh, rfl⟩ := mem_generate_assignments hm.1 hm.2 hy.1 hy.2 a ha
  have hlen : ((slotSample s.staff_df sh σ1).map (fun p => rowPick p.2)).length =
      min 3 (filterAvailable s.staff_df sh).length := by
    rw [List.length_map, slotSample_length]
  refine ⟨hlen, fun h4 => ?_⟩
  have h4' : 4 ≤ (filterAvailable s.staff_df sh).length := h4
  show ((slotSample s.staff_df sh σ1).map (fun p => rowPick p.2)).length = 3
  rw [hlen]
  omega

/-- Witness for C3 at `(2021, 2)` with a four-person roster all available for
AM (picks are capped at 3). -/
theorem C3_pick_count_witness :
    ((1 : Nat) ≤ 2 ∧ (2 : Nat) ≤ 12) ∧ ((1 : Nat) ≤ 2021 ∧ (2021 : Nat) ≤ 9999) ∧
    (∀ a ∈ (generate_schedule
        ⟨[⟨"A", "Full EMT", some "AM", true⟩, ⟨"B", "Observer", some "AM", false⟩,
          ⟨"C", "Probationary EMT", some "AM", true⟩, ⟨"D", "Full EMT", some "AM", true⟩],
          240, none, [], []⟩ 2021 2 (fun _ _ => 0)).1.assignments,
      a.2.length = min 3 (filterAvailable
        [⟨"A", "Full EMT", some "AM", true⟩, ⟨"B", "Observer", some "AM", false⟩,
         ⟨"C", "Probationary EMT", some "AM", true⟩, ⟨"D", "Full EMT", some "AM", true⟩]
        a.1.2).length ∧
      (4 ≤ (filterAvailable
        [⟨"A", "Full EMT", some "AM", true⟩, ⟨"B", "Observer", some "AM", false⟩,
         ⟨"C", "Probationary EMT", some "AM", true⟩, ⟨"D", "Full EMT", some "AM", true⟩]
        a.1.2).length → a.2.length = 3)) :=
  ⟨⟨by decide, by decide⟩, ⟨by decide, by decide⟩,
    C3_pick_count
      ⟨[⟨"A", "Full EMT", some "AM", true⟩, ⟨"B", "Observer", some "AM", false⟩,
        ⟨"C", "Probationary EMT", some "AM", true⟩, ⟨"D", "Full EMT", some "AM", true⟩],
        240, none, [], []⟩ 2021 2 (fun _ _ => 0)
      ⟨by decide, by decide⟩ ⟨by decide, by decide⟩⟩

/-- C4: slot picks are a sample without replacement: the sampled rows of any
slot are pairwise distinct, and (when roster names are distinct) no staff
member's name appears twice within one slot's picks. -/
theorem C4_no_duplicate_picks (s : Scheduler) (year month : Nat)
    (σ : Nat → Nat → Nat) (hm : 1 ≤ month ∧ month ≤ 12)
    (hy : 1 ≤ year ∧ year ≤ 9999)
    (hnames : (s.staff_df.map (fun r => r.name)).Nodup) :
    (∀ shift σ1, (slotSample s.staff_df shift σ1).Nodup) ∧
    ∀ a ∈ (generate_schedule s year month σ).1.assignments,
      (a.2.map (fun p => p.1)).Nodup := by
  refine ⟨fun shift σ1 => slotSample_nodup s.staff_df shift σ1, ?_⟩
  intro a ha
  obtain ⟨d, sh, σ1, hsh, rfl⟩ := mem_generate_assignments hm.1 hm.2 hy.1 hy.2 a ha
  show (((slotSample s.staff_df sh σ1).map (fun p => rowPick p.2)).map
    (fun p => p.1)).Nodup
  rw [List.map_map]
  refine List.Nodup.map_on ?_ (slotSample_nodup _ _ _)
  intro x hx y hy' hxy
  have hxy' : x.2.name = y.2.name := hxy
  have hx' := mem_filterAvailable.mp (slotSample_subset x hx)
  have hy'' := mem_filterAvailable.mp (slotSample_subset y hy')
  have hxn : (s.staff_df.map (fun r => r.name))[x.1]? = some x.2.name := by
    rw [List.getElem?_map, hx'.1]
    rfl
  have hyn : (s.staff_df.map (fun r => r.name))[y.1]? = some y.2.name := by
    rw [List.getElem?_map, hy''.1]
    rfl
  have hlt : x.1 < (s.staff_df.map (fun r => r.name)).length :=
    (List.getElem?_eq_some_iff.mp hxn).1
  have h1 : x.1 = y.1 := List.getElem?_inj hlt hnames (by rw [hxn, hyn, hxy'])
  have h2 : x.2 = y.2 := by
    have := hx'.1
    rw [h1, hy''.1] at this
    exact (Option.some.inj this).symm
  exact Prod.ext h1 h2

/-- Witness for C4 at `(2021, 2)` with a distinct-name roster. -/
theorem C4_no_duplicate_picks_witness :
    ((1 : Nat) ≤ 2 ∧ (2 : Nat) ≤ 12) ∧ ((1 : Nat) ≤ 2021 ∧ (2021 : Nat) ≤ 9999) ∧
    (([⟨"A", "Full EMT", some "AM", true⟩, ⟨"B", "Observer", some "AM,PM", false⟩] :
        List StaffRecord).map (fun r => r.name)).Nodup ∧
    ((∀ shift σ1, (slotSample
        [⟨"A", "Full EMT", some "AM", true⟩, ⟨"B", "Observer", some "AM,PM", false⟩]
        shift σ1).Nodup) ∧
     ∀ a ∈ (generate_schedule
        ⟨[⟨"A", "Full EMT", some "AM", true⟩, ⟨"B", "Observer", some "AM,PM", false⟩],
          240, none, [], []⟩ 2021 2 (fun _ _ => 0)).1.assignments,
      (a.2.map (fun p => p.1)).Nodup) :=
  ⟨⟨by decide, by decide⟩, ⟨by decide, by decide⟩, by decide,
    C4_no_duplicate_picks
      ⟨[⟨"A", "Full EMT", some "AM", true⟩, ⟨"B", "Observer", some "AM,PM", false⟩],
        240, none, [], []⟩ 2021 2 (fun _ _ => 0)
      ⟨by decide, by decide⟩ ⟨by decide, by decide⟩ (by decide)⟩

/-- C5 counterexample: with prior non-empty assignment state and month 13,
`generate_schedule` does fail with the invalid-date error, but the prior
state is NOT preserved — the assignments map and violations list come back
cleared, because the source clears state (lines 36–37) before
`calendar.monthrange` (line 39) can raise. -/
theorem C5_state_not_preserved_counterexample :
    (generate_schedule
        ⟨[], 240, none, [(("2021-02-01", "AM"), [])], ["2021-02-01 AM: missing role Full EMT"]⟩
        2021 13 (fun _ _ => 0)).2 = some SchedErr.illegalMonth ∧
    (generate_schedule
        ⟨[], 240, none, [(("2021-02-01", "AM"), [])], ["2021-02-01 AM: missing role Full EMT"]⟩
        2021 13 (fun _ _ => 0)).1.assignments = [] ∧
    (generate_schedule
        ⟨[], 240, none, [(("2021-02-01", "AM"), [])], ["2021-02-01 AM: missing role Full EMT"]⟩
        2021 13 (fun _ _ => 0)).1.assignments ≠
      [(("2021-02-01", "AM"), [])] := by
  refine ⟨rfl, rfl, ?_⟩
  decide

/-- C5 amended: for every month outside `[1, 12]` the call fails fast with the
invalid-date error and no slot is computed, but the failure happens after the
clearing of state: the scheduler's assignments and violations are empty after
the failing call, regardless of their prior contents. -/
theorem C5_invalid_month_clears_state (s : Scheduler) (year month : Nat)
    (σ : Nat → Nat → Nat) (h : month < 1 ∨ 12 < month) :
    generate_schedule s year month σ =
      ({ s with assignments := [], violations := [] },
        some SchedErr.illegalMonth) := by
  apply generate_err
  unfold monthrange
  rw [if_pos h]

/-- Witness for the amended C5 at month 13 over a prior non-empty state. -/
theorem C5_invalid_month_clears_state_witness :
    ((13 : Nat) < 1 ∨ (12 : Nat) < 13) ∧
    generate_schedule ⟨[], 240, none, [(("x", "AM"), [])], ["v"]⟩ 2021 13
        (fun _ _ => 0) =
      ({ staff_df := [], max_week_paid_hours := 240, max_hours_per_person := none,
         assignments := [], violations := [] }, some SchedErr.illegalMonth) :=
  ⟨by decide,
    C5_invalid_month_clears_state ⟨[], 240, none, [(("x", "AM"), [])], ["v"]⟩
      2021 13 (fun _ _ => 0) (by decide)⟩

/-- C6: two runs for the same `(year, month)` on the same scheduler (the
second starting from the first's end state) have the same number of
assignment entries and identical slot-key lists, equal to the full slot
enumeration — state is fully reset, nothing accumulates. -/
theorem C6_structural_idempotence (s : Scheduler) (year month : Nat)
    (σ1 σ2 : Nat → Nat → Nat) (hm : 1 ≤ month ∧ month ≤ 12)
    (hy : 1 ≤ year ∧ year ≤ 9999) :
    (generate_schedule (generate_schedule s year month σ1).1 year month
        σ2).1.assignments.length =
      (generate_schedule s year month σ1).1.assignments.length ∧
    (generate_schedule (generate_schedule s year month σ1).1 year month
        σ2).1.assignments.map Prod.fst =
      (generate_schedule s year month σ1).1.assignments.map Prod.fst ∧
    (generate_schedule s year month σ1).1.assignments.length =
      numDaysInMonth year month * 3 := by
  refine ⟨?_, ?_, generate_assignments_length s σ1 hm.1 hm.2 hy.1 hy.2⟩
  · rw [generate_assignments_length _ σ2 hm.1 hm.2 hy.1 hy.2,
      generate_assignments_length s σ1 hm.1 hm.2 hy.1 hy.2]
  · rw [generate_keys _ σ2 hm.1 hm.2 hy.1 hy.2,
      generate_keys s σ1 hm.1 hm.2 hy.1 hy.2]

/-- Witness for C6 at `(2021, 2)` with a one-person roster and two different
oracles. -/
theorem C6_structural_idempotence_witness :
    ((1 : Nat) ≤ 2 ∧ (2 : Nat) ≤ 12) ∧ ((1 : Nat) ≤ 2021 ∧ (2021 : Nat) ≤ 9999) ∧
    ((generate_schedule
        (generate_schedule ⟨[⟨"Alice", "Full EMT", some "AM", true⟩], 240, none, [], []⟩
          2021 2 (fun _ _ => 0)).1 2021 2 (fun _ k => k + 1)).1.assignments.length =
      (generate_schedule ⟨[⟨"Alice", "Full EMT", some "AM", true⟩], 240, none, [], []⟩
          2021 2 (fun _ _ => 0)).1.assignments.length ∧
     (generate_schedule
        (generate_schedule ⟨[⟨"Alice", "Full EMT", some "AM", true⟩], 240, none, [], []⟩
          2021 2 (fun _ _ => 0)).1 2021 2 (fun _ k => k + 1)).1.assignments.map Prod.fst =
      (generate_schedule ⟨[⟨"Alice", "Full EMT", some "AM", true⟩], 240, none, [], []⟩
          2021 2 (fun _ _ => 0)).1.assignments.map Prod.fst ∧
     (generate_schedule ⟨[⟨"Alice", "Full EMT", some "AM", true⟩], 240, none, [], []⟩
          2021 2 (fun _ _ => 0)).1.assignments.length =
      numDaysInMonth 2021 2 * 3) :=
  ⟨⟨by decide, by decide⟩, ⟨by decide, by decide⟩,
    C6_structural_idempotence ⟨[⟨"Alice", "Full EMT", some "AM", true⟩], 240, none, [], []⟩
      2021 2 (fun _ _ => 0) (fun _ k => k + 1)
      ⟨by decide, by decide⟩ ⟨by decide, by decide⟩⟩

/-- C7: the availability filter keeps exactly the records whose availability
string contains the shift name as a substring (`"AM,PM"` matches both AM and
PM), in the store's insertion order (a sublist of the roster), and yields `[]`
rather than failing when no record qualifies. -/
theorem C7_filter_available (staff : List StaffRecord) (shift : String)
    (p : Nat × StaffRecord) :
    ((filterAvailable staff shift).map Prod.snd).Sublist staff ∧
    (p ∈ filterAvailable staff shift ↔
      staff[p.1]? = some p.2 ∧ ∃ av, p.2.availability = some av ∧
        shift.data <:+: av.data) ∧
    availMatches (some "AM,PM") "AM" = true ∧
    availMatches (some "AM,PM") "PM" = true ∧
    ((∀ r ∈ staff, availMatches r.availability shift = false) →
      filterAvailable staff shift = []) := by
  refine ⟨?_, ?_, by decide, by decide, ?_⟩
  · have h1 :=
      (List.filter_sublist (p := fun q => availMatches q.2.availability shift)
        staff.enum).map Prod.snd
    rw [List.enum_map_snd] at h1
    exact h1
  · rw [mem_filterAvailable]
    constructor
    · rintro ⟨h1, h2⟩
      refine ⟨h1, ?_⟩
      cases hav : p.2.availability with
      | none => rw [hav] at h2; exact absurd h2 (by simp [availMatches])
      | some av =>
        rw [hav] at h2
        exact ⟨av, rfl, decide_eq_true_iff.mp h2⟩
    · rintro ⟨h1, av, hav, hinf⟩
      refine ⟨h1, ?_⟩
      rw [hav]
      show decide (shift.data <:+: av.data) = true
      exact decide_eq_true_iff.mpr hinf
  · intro hall
    unfold filterAvailable
    rw [List.filter_eq_nil_iff]
    intro q hq
    have hq2 : q.2 ∈ staff := by
      have := List.mem_map_of_mem Prod.snd hq
      rwa [List.enum_map_snd] at this
    rw [hall q.2 hq2]
    exact Bool.false_ne_true

/-- Witness for C7: a one-record roster with availability `"AM,PM"`, shift
`"PM"`, probing the record at index 0. -/
theorem C7_filter_available_witness :
    ((filterAvailable [⟨"Bob", "Observer", some "AM,PM", false⟩] "PM").map
        Prod.snd).Sublist [⟨"Bob", "Observer", some "AM,PM", false⟩] ∧
    ((0, (⟨"Bob", "Observer", some "AM,PM", false⟩ : StaffRecord)) ∈
        filterAvailable [⟨"Bob", "Observer", some "AM,PM", false⟩] "PM" ↔
      ([⟨"Bob", "Observer", some "AM,PM", false⟩] :
          List StaffRecord)[(0 : Nat)]? =
          some ⟨"Bob", "Observer", some "AM,PM", false⟩ ∧
        ∃ av, (⟨"Bob", "Observer", some "AM,PM", false⟩ : StaffRecord).availability =
            some av ∧ "PM".data <:+: av.data) ∧
    availMatches (some "AM,PM") "AM" = true ∧
    availMatches (some "AM,PM") "PM" = true ∧
    ((∀ r ∈ ([⟨"Bob", "Observer", some "AM,PM", false⟩] : List StaffRecord),
        availMatches r.availability "PM" = false) →
      filterAvailable [⟨"Bob", "Observer", some "AM,PM", false⟩] "PM" = []) :=
  C7_filter_available [⟨"Bob", "Observer", some "AM,PM", false⟩] "PM"
    (0, ⟨"Bob", "Observer", some "AM,PM", false⟩)

/-- C8: `max_week_paid_hours` and `max_hours_per_person` are accepted but
never consulted: two schedulers over the same roster and prior state that
differ only in these values produce identical assignments, violations and
error outcome for any `(year, month)` and random source. -/
theorem C8_limits_inert (staff : List StaffRecord) (mw1 mw2 : Nat)
    (mh1 mh2 : Option Nat) (A : List ((String × String) × List Pick))
    (V : List String) (year month : Nat) (σ : Nat → Nat → Nat) :
    (generate_schedule ⟨staff, mw1, mh1, A, V⟩ year month σ).1.assignments =
      (generate_schedule ⟨staff, mw2, mh2, A, V⟩ year month σ).1.assignments ∧
    (generate_schedule ⟨staff, mw1, mh1, A, V⟩ year month σ).1.violations =
      (generate_schedule ⟨staff, mw2, mh2, A, V⟩ year month σ).1.violations ∧
    (generate_schedule ⟨staff, mw1, mh1, A, V⟩ year month σ).2 =
      (generate_schedule ⟨staff, mw2, mh2, A, V⟩ year month σ).2 := by
  unfold generate_schedule
  rcases h : monthrange year month with e | nd <;> simp [h]

/-- C9: an empty roster is not an error: every slot's picks are empty and the
violation list has exactly `numDays × 3 × 3` entries. -/
theorem C9_empty_roster (year month : Nat) (σ : Nat → Nat → Nat) (mw : Nat)
    (mh : Option Nat) (A : List ((String × String) × List Pick))
    (V : List String) (hm : 1 ≤ month ∧ month ≤ 12)
    (hy : 1 ≤ year ∧ year ≤ 9999) :
    (∀ a ∈ (generate_schedule ⟨[], mw, mh, A, V⟩ year month σ).1.assignments,
        a.2 = []) ∧
    (generate_schedule ⟨[], mw, mh, A, V⟩ year month σ).1.violations.length =
      numDaysInMonth year month * 3 * 3 ∧
    (generate_schedule ⟨[], mw, mh, A, V⟩ year month σ).2 = none := by
  refine ⟨?_, ?_, ?_⟩
  · intro a ha
    obtain ⟨d, sh, σ1, hsh, rfl⟩ :=
      mem_generate_assignments hm.1 hm.2 hy.1 hy.2 a ha
    rfl
  · rw [generate_ok _ σ hm.1 hm.2 hy.1 hy.2]
    show (((genAllSlots year month (numDaysInMonth year month)
        ([] : List StaffRecord) σ).map Prod.snd).flatten).length = _
    have hv : ∀ x ∈ ((genAllSlots year month (numDaysInMonth year month)
        ([] : List StaffRecord) σ).map Prod.snd), x.length = 3 := by
      intro x hx
      rw [List.mem_map] at hx
      obtain ⟨e, he, rfl⟩ := hx
      obtain ⟨d, sh, σ1, _, _, _, rfl⟩ := mem_genAllSlots he
      rfl
    rw [flatten_const_length hv, List.length_map, genAllSlots_length]
  · rw [generate_ok _ σ hm.1 hm.2 hy.1 hy.2]

/-- Witness for C9 at `(2021, 2)`: 84 slots, 252 violations, no error. -/
theorem C9_empty_roster_witness :
    ((1 : Nat) ≤ 2 ∧ (2 : Nat) ≤ 12) ∧ ((1 : Nat) ≤ 2021 ∧ (2021 : Nat) ≤ 9999) ∧
    ((∀ a ∈ (generate_schedule ⟨[], 240, none, [], []⟩ 2021 2
        (fun _ _ => 0)).1.assignments, a.2 = []) ∧
     (generate_schedule ⟨[], 240, none, [], []⟩ 2021 2
        (fun _ _ => 0)).1.violations.length = numDaysInMonth 2021 2 * 3 * 3 ∧
     (generate_schedule ⟨[], 240, none, [], []⟩ 2021 2 (fun _ _ => 0)).2 = none) :=
  ⟨⟨by decide, by decide⟩, ⟨by decide, by decide⟩,
    C9_empty_roster 2021 2 (fun _ _ => 0) 240 none [] []
      ⟨by decide, by decide⟩ ⟨by decide, by decide⟩⟩

/-- C10: a record whose availability cell is missing (NaN, modelled `none`)
matches no shift, is excluded from every shift's candidate pool, the run
still succeeds, and every recorded pick originates from a record whose
availability matched the slot's shift — so the NaN record's row can never be
picked. -/
theorem C10_nan_availability (s : Scheduler) (year month : Nat)
    (σ : Nat → Nat → Nat) (r : StaffRecord) (hr : r.availability = none)
    (hm : 1 ≤ month ∧ month ≤ 12) (hy : 1 ≤ year ∧ year ≤ 9999) :
    (∀ shift, availMatches r.availability shift = false) ∧
    (∀ shift i, (i, r) ∉ filterAvailable s.staff_df shift) ∧
    (generate_schedule s year month σ).2 = none ∧
    (∀ a ∈ (generate_schedule s year month σ).1.assignments, ∀ p ∈ a.2,
      ∃ rr ∈ s.staff_df, availMatches rr.availability a.1.2 = true ∧
        p = rowPick rr) := by
  have h1 : ∀ shift, availMatches r.availability shift = false := by
    intro shift
    rw [hr]
    rfl
  refine ⟨h1, ?_, ?_, ?_⟩
  · intro shift i hmem
    have h2 : availMatches r.availability shift = true :=
      (mem_filterAvailable.mp hmem).2
    rw [h1 shift] at h2
    exact Bool.false_ne_true h2
  · rw [generate_ok s σ hm.1 hm.2 hy.1 hy.2]
  · intro a ha p hp
    obtain ⟨d, sh, σ1, hsh, rfl⟩ :=
      mem_generate_assignments hm.1 hm.2 hy.1 hy.2 a ha
    have hp' : p ∈ (slotSample s.staff_df sh σ1).map (fun q => rowPick q.2) := hp
    rw [List.mem_map] at hp'
    obtain ⟨q, hq, rfl⟩ := hp'
    have hq' := mem_filterAvailable.mp (slotSample_subset q hq)
    exact ⟨q.2, List.getElem?_mem hq'.1, hq'.2, rfl⟩

/-- Witness for C10 at `(2021, 2)` with a roster containing a NaN-availability
record. -/
theorem C10_nan_availability_witness :
    ((⟨"Carol", "Probationary EMT", none, true⟩ : StaffRecord).availability =
        none) ∧
    ((1 : Nat) ≤ 2 ∧ (2 : Nat) ≤ 12) ∧ ((1 : Nat) ≤ 2021 ∧ (2021 : Nat) ≤ 9999) ∧
    ((∀ shift, availMatches
        (⟨"Carol", "Probationary EMT", none, true⟩ : StaffRecord).availability
        shift = false) ∧
     (∀ shift i, ((i, ⟨"Carol", "Probationary EMT", none, true⟩) :
          Nat × StaffRecord) ∉ filterAvailable
          [⟨"Alice", "Full EMT", some "AM", true⟩,
           ⟨"Carol", "Probationary EMT", none, true⟩] shift) ∧
     (generate_schedule
        ⟨[⟨"Alice", "Full EMT", some "AM", true⟩,
          ⟨"Carol", "Probationary EMT", none, true⟩], 240, none, [], []⟩
        2021 2 (fun _ _ => 0)).2 = none ∧
     (∀ a ∈ (generate_schedule
        ⟨[⟨"Alice", "Full EMT", some "AM", true⟩,
          ⟨"Carol", "Probationary EMT", none, true⟩], 240, none, [], []⟩
        2021 2 (fun _ _ => 0)).1.assignments, ∀ p ∈ a.2,
      ∃ rr ∈ ([⟨"Alice", "Full EMT", some "AM", true⟩,
          ⟨"Carol", "Probationary EMT", none, true⟩] : List StaffRecord),
        availMatches rr.availability a.1.2 = true ∧ p = rowPick rr)) :=
  ⟨rfl, ⟨by decide, by decide⟩, ⟨by decide, by decide⟩,
    C10_nan_availability
      ⟨[⟨"Alice", "Full EMT", some "AM", true⟩,
        ⟨"Carol", "Probationary EMT", none, true⟩], 240, none, [], []⟩
      2021 2 (fun _ _ => 0) ⟨"Carol", "Probationary EMT", none, true⟩ rfl
      ⟨by decide, by decide⟩ ⟨by decide, by decide⟩⟩

end EMS
